import Mathlib

/-!
Verification development for the Polymarket complete-set maker bot
(`src/bot/` of the repository).  Prices, sizes and timestamps are embedded
as rationals (the Python code uses floats for plain arithmetic and
comparisons; none of the verified properties depends on binary rounding).
Python `round(x, n)` (banker's rounding) and `int(x)` (truncation toward
zero) are embedded explicitly below.
-/

namespace PolyBot

/-- Floor of a rational as an integer. -/
def ratFloorZ (q : ℚ) : ℤ := ⌊q⌋

/-- Python `int(x)`: truncation toward zero. -/
def pyIntTrunc (q : ℚ) : ℤ := if 0 ≤ q then ratFloorZ q else -(ratFloorZ (-q))

/-- Round-half-to-even on rationals, Python `round(x)`. -/
def roundHalfEven (q : ℚ) : ℤ :=
  let f := ratFloorZ q
  let r := q - (f : ℚ)
  if r < 1/2 then f
  else if 1/2 < r then f + 1
  else if f % 2 = 0 then f else f + 1

/-- Python `round(x, n)` for nonnegative `n`. -/
def pyRound (q : ℚ) (n : ℕ) : ℚ := (roundHalfEven (q * 10 ^ n) : ℚ) / 10 ^ n

/-- `bot/strategy.py` `_round_to_tick` and the identical inline pattern in
`bot/engine.py`: `round(int(price / tick) * tick, 4)`. -/
def round_to_tick (price tick : ℚ) : ℚ :=
  pyRound ((pyIntTrunc (price / tick) : ℚ) * tick) 4

/-- Python truthiness of an optional float: `None` and `0.0` are falsy. -/
def pyFalsyOpt (o : Option ℚ) : Bool :=
  match o with
  | none => true
  | some t => t = 0

/-- Python `x or d` for an optional float `x`: `d` when `x` is `None` or `0.0`. -/
def pyOrQ (o : Option ℚ) (d : ℚ) : ℚ :=
  match o with
  | none => d
  | some t => if t = 0 then d else t

/-- `a` starts with `pat` (character lists). -/
def listStartsWith : List Char → List Char → Bool
  | [], _ => true
  | _ :: _, [] => false
  | a :: as, b :: bs => a == b && listStartsWith as bs

/-- `pat` occurs as a contiguous sublist of `l`. -/
def listContainsSub (pat : List Char) : List Char → Bool
  | [] => listStartsWith pat []
  | c :: rest => listStartsWith pat (c :: rest) || listContainsSub pat rest

/-- Python `pat in s` on strings. -/
def strContains (s pat : String) : Bool := listContainsSub pat.data s.data

/-- Python `s.lower()` (ASCII is all that the scanned error strings use). -/
def pyLower (s : String) : String := ⟨s.data.map Char.toLower⟩

-- ── Enums (`bot/types.py`) ──────────────────────────────────────────

/-- `OrderState` — lifecycle of a single leg order (`bot/types.py:16`). -/
inductive OrderState
  | PENDING
  | LIVE
  | FILLED
  | CANCELLED
  | REJECTED
  | EXPIRED
deriving DecidableEq, Repr

/-- `SetState` — lifecycle of a complete-set pair (`bot/types.py:26`). -/
inductive SetState
  | QUOTING
  | ONE_LEG_FILLED
  | COMPLETE
  | AWAITING_RESOLUTION
  | ABANDONED
  | REDEEMED
  | REDEMPTION_FAILED
deriving DecidableEq, Repr

/-- `TokenSide` (`bot/types.py:37`). -/
inductive TokenSide
  | UP
  | DOWN
deriving DecidableEq, Repr

/-- Terminal set states (spec §3; used only in theorem statements). -/
def terminal_set_state (s : SetState) : Bool :=
  match s with
  | SetState.ABANDONED => true
  | SetState.REDEEMED => true
  | SetState.REDEMPTION_FAILED => true
  | _ => false

-- ── Data classes (`bot/types.py`) ───────────────────────────────────

/-- `TopOfBook` (`bot/types.py:43`); `timestamp` is irrelevant to every
verified property and omitted. -/
structure TopOfBook where
  token_id : String
  best_bid : ℚ
  best_ask : ℚ
  bid_size : ℚ
  ask_size : ℚ
deriving DecidableEq, Repr

/-- `TopOfBook.spread` (`bot/types.py:54`). -/
def TopOfBook.spread (t : TopOfBook) : ℚ := t.best_ask - t.best_bid

/-- `MarketWindow` (`bot/types.py:62`); `end_time` (the raw string) is kept
only for persistence and omitted here. -/
structure MarketWindow where
  condition_id : String
  question : String
  up_token_id : String
  down_token_id : String
  end_time_epoch : ℚ
  slug : Option String
  event_id : String
deriving DecidableEq, Repr

/-- `LegOrder` (`bot/types.py:91`). -/
structure LegOrder where
  order_id : String
  token_id : String
  side : TokenSide
  price : ℚ
  size : ℚ
  state : OrderState
  placed_at : ℚ
  filled_at : Option ℚ
deriving DecidableEq, Repr

/-- `CompleteSet` (`bot/types.py:108`). -/
structure CompleteSet where
  set_id : String
  window : Option MarketWindow
  up_leg : Option LegOrder
  down_leg : Option LegOrder
  state : SetState
  created_at : ℚ
  completed_at : Option ℚ
  pnl : Option ℚ
  redemption_attempts : ℕ
  last_redemption_error : Option String
deriving DecidableEq, Repr

/-- Python `leg and leg.state == OrderState.FILLED` for an optional leg. -/
def legFilledB (o : Option LegOrder) : Bool :=
  match o with
  | none => false
  | some l => l.state = OrderState.FILLED

/-- Python `leg and leg.state != OrderState.FILLED` for an optional leg. -/
def legPresentNotFilled (o : Option LegOrder) : Bool :=
  match o with
  | none => false
  | some l => l.state ≠ OrderState.FILLED

/-- `target.up_leg and target.up_leg.state == FILLED` (`bot/position_tracker.py:252`). -/
def upFilled (cs : CompleteSet) : Bool := legFilledB cs.up_leg

/-- `target.down_leg and target.down_leg.state == FILLED` (`bot/position_tracker.py:255`). -/
def downFilled (cs : CompleteSet) : Bool := legFilledB cs.down_leg

/-- `CompleteSet.combined_cost` (`bot/types.py:122`). -/
def combined_cost (cs : CompleteSet) : ℚ :=
  (match cs.up_leg with | none => 0 | some u => u.price * u.size) +
  (match cs.down_leg with | none => 0 | some d => d.price * d.size)

/-- `CompleteSet.filled_leg` (`bot/types.py:134`): the filled leg if exactly
one leg is filled, else `None`. -/
def filled_leg (cs : CompleteSet) : Option LegOrder :=
  if legFilledB cs.up_leg && !legFilledB cs.down_leg then cs.up_leg
  else if legFilledB cs.down_leg && !legFilledB cs.up_leg then cs.down_leg
  else none

/-- `CompleteSet.unfilled_leg` (`bot/types.py:144`): the unfilled leg if
exactly one leg is filled, else `None`. -/
def unfilled_leg (cs : CompleteSet) : Option LegOrder :=
  if legPresentNotFilled cs.up_leg && legFilledB cs.down_leg then cs.up_leg
  else if legPresentNotFilled cs.down_leg && legFilledB cs.up_leg then cs.down_leg
  else none

-- ── Configuration (`bot/config.py`) ─────────────────────────────────

/-- `BotConfig` (`bot/config.py:16`) — the fields the verified components
read.  Float-typed fields are rationals, int-typed fields are integers. -/
structure BotConfig where
  min_edge_cents : ℚ
  tick_size : ℚ
  bid_improve_cents : ℚ
  default_size : ℚ
  max_size : ℚ
  min_combined_bids : ℚ
  max_spread : ℚ
  min_bid_size : ℚ
  max_open_sets : ℤ
  max_daily_loss : ℚ
  max_total_exposure : ℚ
  one_leg_timeout_seconds : ℚ
  loss_streak_threshold : ℤ
  loss_streak_scale : ℚ
  min_risk_multiplier : ℚ
  redemption_grace_seconds : ℚ
  redemption_deadline_seconds : ℚ
  max_redemption_failures : ℕ
deriving DecidableEq, Repr

/-- The dataclass defaults of `BotConfig` (`bot/config.py:35`). -/
def defaultConfig : BotConfig :=
  { min_edge_cents := 2
    tick_size := 1/100
    bid_improve_cents := 1
    default_size := 5
    max_size := 20
    min_combined_bids := 4/5
    max_spread := 1/10
    min_bid_size := 10
    max_open_sets := 10
    max_daily_loss := 50
    max_total_exposure := 200
    one_leg_timeout_seconds := 180
    loss_streak_threshold := 3
    loss_streak_scale := 1/2
    min_risk_multiplier := 1/4
    redemption_grace_seconds := 0
    redemption_deadline_seconds := 600
    max_redemption_failures := 3 }

/-- `getattr(config, "max_position_pct", 0.10)` (`bot/strategy.py:75`):
`BotConfig` has no such field, so the default 0.10 is always used. -/
def maxPositionPct : ℚ := 1/10

-- ── Orderbook parsing (`bot/orderbook.py`) ──────────────────────────

/-- One bid/ask level of a CLOB book response, with `price`/`size` already
converted from their decimal strings (`float(entry.get("price", 0))`). -/
structure BookLevel where
  price : ℚ
  size : ℚ
deriving DecidableEq, Repr

/-- Python `levels[-1]`: the last element of a list, `None` when empty. -/
def lastEntry : List BookLevel → Option BookLevel
  | [] => none
  | [x] => some x
  | _ :: x :: xs => lastEntry (x :: xs)

/-- `_parse_book_response` (`bot/orderbook.py:73`): empty side ⇒ `None`;
best bid is the last bid level (`bids[-1]`), best ask the last ask level
(`asks[-1]`); non-positive best price ⇒ `None`; otherwise a snapshot. -/
def parse_book_response (token_id : String) (bids asks : List BookLevel) :
    Option TopOfBook :=
  match lastEntry bids, lastEntry asks with
  | some bb, some ba =>
      if bb.price ≤ 0 ∨ ba.price ≤ 0 then none
      else some { token_id := token_id, best_bid := bb.price, best_ask := ba.price,
                  bid_size := bb.size, ask_size := ba.size }
  | _, _ => none

-- ── Strategy (`bot/strategy.py`) ────────────────────────────────────

/-- `QuoteDecision` (`bot/types.py:181`). -/
structure QuoteDecision where
  should_quote : Bool
  up_bid_price : ℚ
  down_bid_price : ℚ
  size : ℚ
  edge : ℚ
  reason : String
deriving DecidableEq, Repr

/-- `_check_book_quality` (`bot/strategy.py:94`).  The interpolated numbers
of the Python rejection messages are omitted; only emptiness ("healthy") and
the static message head matter to callers. -/
def check_book_quality (cfg : BotConfig) (up_tob down_tob : TopOfBook) : String :=
  if up_tob.best_bid + down_tob.best_bid < cfg.min_combined_bids then "Thin books"
  else if cfg.max_spread < up_tob.spread then "UP spread too wide"
  else if cfg.max_spread < down_tob.spread then "DOWN spread too wide"
  else if up_tob.bid_size < cfg.min_bid_size then "UP bid depth too thin"
  else if down_tob.bid_size < cfg.min_bid_size then "DOWN bid depth too thin"
  else ""

/-- `_calculate_bid_price` (`bot/strategy.py:130`): one improve-step above
best bid, capped at one tick below best ask, rounded down to the tick grid. -/
def calculate_bid_price (cfg : BotConfig) (tob : TopOfBook) : ℚ :=
  if tob.best_bid ≤ 0 then 0
  else
    round_to_tick (min (tob.best_bid + cfg.bid_improve_cents / 100)
                       (tob.best_ask - cfg.tick_size)) cfg.tick_size

/-- `_calculate_size` (`bot/strategy.py:147`). -/
def calculate_size (cfg : BotConfig) (edge_cents : ℚ) : ℚ :=
  if edge_cents ≤ cfg.min_edge_cents then cfg.default_size
  else
    pyRound (cfg.default_size +
      min (edge_cents / (cfg.min_edge_cents * 3)) 1 *
        (cfg.max_size - cfg.default_size)) 1

/-- `edge_cents` as computed in `evaluate_window` (`bot/strategy.py:48`):
`(1.0 - (up_bid + down_bid)) * 100.0` over our two computed bid prices. -/
def edge_cents_of (cfg : BotConfig) (up_tob down_tob : TopOfBook) : ℚ :=
  (1 - (calculate_bid_price cfg up_tob + calculate_bid_price cfg down_tob)) * 100

/-- `CompleteSetStrategy.evaluate_window` (`bot/strategy.py:30`).  The
`window` argument is unused by the decision logic (only logged). -/
def evaluate_window (cfg : BotConfig) (_window : MarketWindow)
    (up_tob down_tob : TopOfBook) (risk_multiplier_arg : ℚ) : QuoteDecision :=
  let rejection := check_book_quality cfg up_tob down_tob
  if rejection ≠ "" then
    { should_quote := false, up_bid_price := 0, down_bid_price := 0,
      size := 0, edge := 0, reason := rejection }
  else if edge_cents_of cfg up_tob down_tob < cfg.min_edge_cents then
    { should_quote := false, up_bid_price := 0, down_bid_price := 0,
      size := 0, edge := 0, reason := "Edge too thin" }
  else if calculate_bid_price cfg up_tob ≤ 0 ∨ calculate_bid_price cfg down_tob ≤ 0 then
    { should_quote := false, up_bid_price := 0, down_bid_price := 0,
      size := 0, edge := 0, reason := "Invalid bid price (zero or negative)" }
  else if 1 ≤ calculate_bid_price cfg up_tob ∨ 1 ≤ calculate_bid_price cfg down_tob then
    { should_quote := false, up_bid_price := 0, down_bid_price := 0,
      size := 0, edge := 0, reason := "Bid exceeds $1" }
  else
    let up_bid := calculate_bid_price cfg up_tob
    let down_bid := calculate_bid_price cfg down_tob
    let edge_cents := edge_cents_of cfg up_tob down_tob
    let base_size := calculate_size cfg edge_cents
    let adjusted₀ := max (pyRound (base_size * risk_multiplier_arg) 1) 1
    let adjusted :=
      if 0 < up_bid ∧ 0 < down_bid then
        min adjusted₀
          (cfg.max_total_exposure * maxPositionPct / ((up_bid + down_bid) / 2))
      else adjusted₀
    { should_quote := true, up_bid_price := up_bid, down_bid_price := down_bid,
      size := adjusted, edge := pyRound (edge_cents / 100) 4,
      reason := "Edge ok" }

-- ── Risk governor (`bot/risk.py`) ───────────────────────────────────

/-- `_count_open` (`bot/risk.py:209`): sets in `QUOTING` or `ONE_LEG_FILLED`. -/
def count_open (active : List CompleteSet) : ℕ :=
  (active.filter (fun s =>
    s.state == SetState.QUOTING || s.state == SetState.ONE_LEG_FILLED)).length

/-- `_total_exposure` (`bot/risk.py:216`): sum of `combined_cost` over all
non-terminal sets. -/
def total_exposure (active : List CompleteSet) : ℚ :=
  ((active.filter (fun s =>
    s.state == SetState.QUOTING || s.state == SetState.ONE_LEG_FILLED ||
    s.state == SetState.COMPLETE || s.state == SetState.AWAITING_RESOLUTION)).map
      combined_cost).sum

/-- Mutable counters of `RiskManager` (`bot/risk.py:36`). -/
structure RiskState where
  daily_pnl : ℚ
  day_start : ℚ
  kill_switch : Bool
  consecutive_losses : ℕ
  consecutive_redemption_failures : ℕ
deriving DecidableEq, Repr

/-- `_maybe_reset_daily` (`bot/risk.py:197`): reset the daily PnL and loss
streak once 86400 s of wall clock have elapsed. -/
def maybe_reset_daily (rs : RiskState) (now : ℚ) : RiskState :=
  if 86400 ≤ now - rs.day_start then
    { rs with daily_pnl := 0, day_start := now, consecutive_losses := 0 }
  else rs

/-- `can_open_new_set` (`bot/risk.py:48`).  Returns the decision together
with the (possibly daily-reset) counter state. -/
def can_open_new_set (cfg : BotConfig) (rs : RiskState) (now : ℚ)
    (active : List CompleteSet) : Bool × RiskState :=
  if rs.kill_switch then (false, rs)
  else
    let rs' := maybe_reset_daily rs now
    if rs'.daily_pnl ≤ -cfg.max_daily_loss then (false, rs')
    else if cfg.max_open_sets ≤ (count_open active : ℤ) then (false, rs')
    else if cfg.max_total_exposure ≤ total_exposure active then (false, rs')
    else (true, rs')

/-- `_streak_multiplier` (`bot/risk.py:90`). -/
def streak_multiplier (cfg : BotConfig) (rs : RiskState) : ℚ :=
  if (rs.consecutive_losses : ℤ) ≤ cfg.loss_streak_threshold then 1
  else
    max (cfg.loss_streak_scale ^
          ((rs.consecutive_losses : ℤ) - cfg.loss_streak_threshold).toNat)
        cfg.min_risk_multiplier

/-- `_exposure_multiplier` (`bot/risk.py:99`). -/
def exposure_multiplier (cfg : BotConfig) (active : List CompleteSet) : ℚ :=
  if cfg.max_total_exposure ≤ 0 then 1
  else if total_exposure active / cfg.max_total_exposure < 1/2 then 1
  else
    max (1 - 3/2 * (total_exposure active / cfg.max_total_exposure - 1/2))
        cfg.min_risk_multiplier

/-- `risk_multiplier` (`bot/risk.py:78`): product of the streak and exposure
scales, floored at `min_risk_multiplier`. -/
def risk_multiplier (cfg : BotConfig) (rs : RiskState)
    (active : List CompleteSet) : ℚ :=
  max (streak_multiplier cfg rs * exposure_multiplier cfg active)
      cfg.min_risk_multiplier

-- ── Order broker redemption path (`bot/order_manager.py`) ───────────

/-- `USDC_COLLATERALS` (`bot/order_manager.py:29`): native USDC first, then
legacy bridged USDC.e. -/
def USDC_COLLATERALS : List String :=
  ["0x3c499c542cEF5E3811e1192ce70d8cC03d5c3359",
   "0x2791Bca1f2de4661ED88A30C99A7a9449Aa84174"]

/-- `_check_payouts_set` (`bot/order_manager.py:370`): true iff the on-chain
`payoutDenominator(condition_id)` call succeeds and returns a non-zero
value.  `none` models any RPC/exception path (caught, returns `False`). -/
def check_payouts_set (payoutDenominator : Option ℕ) : Bool :=
  match payoutDenominator with
  | none => false
  | some d => d ≠ 0

/-- The exact message of `bot/order_manager.py:405`. -/
def PAYOUTS_NOT_SET_MSG : String :=
  "Payouts not set on-chain yet — oracle has not resolved"

/-- The exact message of `bot/order_manager.py:420`. -/
def NO_POSITIONS_MSG : String :=
  "No positions found in native USDC or USDC.e collection — may already be redeemed"

/-- The collateral loop of `_redeem_onchain_sync` (`bot/order_manager.py:407`):
`submit` is the `_submit_redeem_tx` oracle; the second component records
which collateral addresses a `redeemPositions` transaction was submitted
for. -/
def redeem_collateral_loop (submit : String → Bool × String) :
    List String → (Bool × String) × List String
  | [] => ((false, NO_POSITIONS_MSG), [])
  | addr :: rest =>
    let r := submit addr
    if r.1 then ((true, ""), [addr])
    else if strContains r.2 "no tokens redeemed" then
      let tail := redeem_collateral_loop submit rest
      (tail.1, addr :: tail.2)
    else ((false, r.2), [addr])

/-- `_redeem_onchain_sync` (`bot/order_manager.py:396`): checks
`payoutDenominator` first and submits no transaction when payouts are not
set.  The function lives on the order manager and has no access to any
`CompleteSet` or leg state; the returned list is the complete record of
`redeemPositions` submissions it performs. -/
def redeem_onchain_sync (payoutDenominator : Option ℕ)
    (submit : String → Bool × String) : (Bool × String) × List String :=
  if check_payouts_set payoutDenominator then
    redeem_collateral_loop submit USDC_COLLATERALS
  else ((false, PAYOUTS_NOT_SET_MSG), [])

-- ── Tracker and engine PnL formulas ─────────────────────────────────

/-- The PnL stored on a set by `PositionTracker.mark_redeemed`
(`bot/position_tracker.py:107`):
`round((1.0 - (up_leg.price + down_leg.price)) * up_leg.size, 4)`,
computed from BOTH leg prices regardless of which legs actually filled. -/
def mark_redeemed_pnl (u d : LegOrder) : ℚ :=
  pyRound ((1 - (u.price + d.price)) * u.size) 4

/-- The single-leg fallback of `BotEngine._calculate_redemption_pnl`
(`bot/engine.py:552`). -/
def single_leg_pnl (cs : CompleteSet) : ℚ :=
  match filled_leg cs with
  | some f => (1 - f.price) * f.size
  | none => 0

/-- `BotEngine._calculate_redemption_pnl` (`bot/engine.py:535`): complete
set ⇒ `(1 - cost_per_share) * up.size`; otherwise the filled-leg formula. -/
def calculate_redemption_pnl (cs : CompleteSet) : ℚ :=
  match cs.up_leg, cs.down_leg with
  | some u, some d =>
      if u.state = OrderState.FILLED ∧ d.state = OrderState.FILLED then
        (1 - (u.price + d.price)) * u.size
      else single_leg_pnl cs
  | _, _ => single_leg_pnl cs

-- ── Position tracker (`bot/position_tracker.py`) ────────────────────

/-- The two collections owned by `PositionTracker` (`bot/position_tracker.py:25`). -/
structure TrackerState where
  active : List CompleteSet
  completed : List CompleteSet
deriving DecidableEq, Repr

/-- The empty tracker (`__init__`, before `load`). -/
def trackerInit : TrackerState := { active := [], completed := [] }

/-- Replace the first element satisfying `p` by its image under `f`
(Python mutates the object returned by `_find_active`). -/
def modifyFirst (p : α → Bool) (f : α → α) : List α → List α
  | [] => []
  | x :: xs => if p x then f x :: xs else x :: modifyFirst p f xs

/-- The set constructed by `BotEngine._post_complete_set`
(`bot/engine.py:215`): fresh `CompleteSet` in state `QUOTING` with both
legs attached and dataclass defaults for the remaining fields. -/
def mkNewSet (w : MarketWindow) (u d : LegOrder) (sid : String) (now : ℚ) :
    CompleteSet :=
  { set_id := sid, window := some w, up_leg := some u, down_leg := some d,
    state := SetState.QUOTING, created_at := now, completed_at := none,
    pnl := none, redemption_attempts := 0, last_redemption_error := none }

/-- The leg mutation of `update_leg_state` (`bot/position_tracker.py:60`):
set the new state, and stamp `filled_at` on a fill when it was unset
(Python truthiness: `not leg.filled_at`). -/
def touchLeg (l : LegOrder) (st : OrderState) (now : ℚ) : LegOrder :=
  if st = OrderState.FILLED ∧ pyFalsyOpt l.filled_at then
    { l with state := st, filled_at := some now }
  else { l with state := st }

/-- `_update_set_state` (`bot/position_tracker.py:250`): derive the set
state from the leg states.  Both filled ⇒ `COMPLETE` (stamps
`completed_at`); exactly one filled ⇒ `ONE_LEG_FILLED`; neither ⇒ no change. -/
def update_set_state (cs : CompleteSet) (now : ℚ) : CompleteSet :=
  if upFilled cs && downFilled cs then
    { cs with state := SetState.COMPLETE, completed_at := some now }
  else if upFilled cs || downFilled cs then
    if cs.state ≠ SetState.ONE_LEG_FILLED then
      { cs with state := SetState.ONE_LEG_FILLED }
    else cs
  else cs

/-- Does the optional leg carry this token id (`_find_leg_by_token`,
`bot/position_tracker.py:288`)? -/
def legTokenMatches (o : Option LegOrder) (tid : String) : Bool :=
  match o with
  | none => false
  | some l => l.token_id == tid

/-- The per-set effect of `update_leg_state` (`bot/position_tracker.py:48`):
find the leg by token id (up leg first), mutate it, then recompute the set
state; no matching leg ⇒ no change. -/
def apply_leg_update (cs : CompleteSet) (tid : String) (st : OrderState)
    (now : ℚ) : CompleteSet :=
  if legTokenMatches cs.up_leg tid then
    update_set_state { cs with up_leg := cs.up_leg.map (fun u => touchLeg u st now) } now
  else if legTokenMatches cs.down_leg tid then
    update_set_state { cs with down_leg := cs.down_leg.map (fun d => touchLeg d st now) } now
  else cs

/-- The per-set effect of `mark_awaiting_resolution`
(`bot/position_tracker.py:84`): only from `COMPLETE` or `ONE_LEG_FILLED`;
stamps `completed_at` when it is unset. -/
def markAwaitingSet (s : CompleteSet) (now : ℚ) : CompleteSet :=
  if s.state = SetState.COMPLETE ∨ s.state = SetState.ONE_LEG_FILLED then
    { s with state := SetState.AWAITING_RESOLUTION,
             completed_at := if pyFalsyOpt s.completed_at then some now
                             else s.completed_at }
  else s

/-- `_finalize` (`bot/position_tracker.py:271`): drop every active set with
the target id and append the target to the completed history. -/
def finalize (ts : TrackerState) (target : CompleteSet) : TrackerState :=
  { active := ts.active.filter (fun s => s.set_id != target.set_id),
    completed := ts.completed ++ [target] }

/-- The tracker operations reachable states are closed under.  Timestamps
(`time.time()` calls) are explicit `now` arguments. -/
inductive TrackerOp
  | addSet (w : MarketWindow) (u d : LegOrder) (sid : String) (now : ℚ)
  | updateLegState (sid tid : String) (st : OrderState) (now : ℚ)
  | markAbandoned (sid : String) (loss : ℚ) (now : ℚ)
  | markAwaitingResolution (sid : String) (now : ℚ)
  | markRedeemed (sid : String) (now : ℚ)
  | markRedemptionFailed (sid err : String)
  | markPermanentlyFailed (sid : String) (now : ℚ)

/-- One tracker operation (`bot/position_tracker.py:39-137`).  `none`
models an uncaught Python exception (`mark_redeemed` reads
`up_leg.price`/`down_leg.price` without a guard and would raise on a
missing leg). -/
def applyOp (op : TrackerOp) (ts : TrackerState) : Option TrackerState :=
  match op with
  | TrackerOp.addSet w u d sid now =>
      some { ts with active := ts.active ++ [mkNewSet w u d sid now] }
  | TrackerOp.updateLegState sid tid st now =>
      let newActive := modifyFirst (fun s => s.set_id == sid)
        (fun s => apply_leg_update s tid st now) ts.active
      some { ts with active := newActive }
  | TrackerOp.markAbandoned sid loss now =>
      match ts.active.find? (fun s => s.set_id == sid) with
      | none => some ts
      | some t => some (finalize ts
          { t with state := SetState.ABANDONED, completed_at := some now,
                   pnl := some loss })
  | TrackerOp.markAwaitingResolution sid now =>
      let newActive := modifyFirst (fun s => s.set_id == sid)
        (fun s => markAwaitingSet s now) ts.active
      some { ts with active := newActive }
  | TrackerOp.markRedeemed sid now =>
      match ts.active.find? (fun s => s.set_id == sid) with
      | none => some ts
      | some t =>
        match t.up_leg, t.down_leg with
        | some u, some d => some (finalize ts
            { t with state := SetState.REDEEMED, completed_at := some now,
                     pnl := some (mark_redeemed_pnl u d) })
        | _, _ => none
  | TrackerOp.markRedemptionFailed sid err =>
      let newActive := modifyFirst (fun s => s.set_id == sid)
        (fun s => { s with redemption_attempts := s.redemption_attempts + 1,
                           last_redemption_error := some err }) ts.active
      some { ts with active := newActive }
  | TrackerOp.markPermanentlyFailed sid now =>
      match ts.active.find? (fun s => s.set_id == sid) with
      | none => some ts
      | some t => some (finalize ts
          { t with state := SetState.REDEMPTION_FAILED, completed_at := some now,
                   pnl := some (-(combined_cost t)) })

/-- Engine-side side condition on operations: `add_set` is only ever called
from `_post_complete_set` with two freshly placed legs, which are `LIVE`
(a `REJECTED` pair is discarded before `add_set`, `bot/engine.py:207`). -/
def opOK (op : TrackerOp) : Bool :=
  match op with
  | TrackerOp.addSet _ u d _ _ =>
      u.state == OrderState.LIVE && d.state == OrderState.LIVE
  | _ => true

/-- Apply a list of operations in order; `none` as soon as one raises. -/
def applyOps : List TrackerOp → TrackerState → Option TrackerState
  | [], ts => some ts
  | op :: ops, ts =>
    match applyOp op ts with
    | none => none
    | some ts' => applyOps ops ts'

/-- Tracker states reachable from the empty tracker by engine-issued
operations. -/
inductive Reachable : TrackerState → Prop
  | init : Reachable trackerInit
  | step {ts ts' : TrackerState} (op : TrackerOp) :
      Reachable ts → opOK op = true → applyOp op ts = some ts' → Reachable ts'

/-- A successful operation run from a reachable state ends reachable. -/
theorem reachable_applyOps (ops : List TrackerOp) {ts ts' : TrackerState}
    (h : Reachable ts) (hok : ∀ op ∈ ops, opOK op = true)
    (happ : applyOps ops ts = some ts') : Reachable ts' := by
  induction ops generalizing ts with
  | nil => cases happ; exact h
  | cons op rest ih =>
    unfold applyOps at happ
    cases hstep : applyOp op ts with
    | none => rw [hstep] at happ; cases happ
    | some ts₁ =>
      rw [hstep] at happ
      exact ih (Reachable.step op h (hok op (by simp)) hstep)
        (fun o ho => hok o (by simp [ho])) happ

-- ── Engine one-leg management (`bot/engine.py:420-531`) ─────────────

/-- External side effects issued by the one-leg management step. -/
inductive EngineAction
  | cancelOrder (order_id : String)
  | placeBid (token_id : String) (side : TokenSide) (price size : ℚ)
deriving DecidableEq, Repr

/-- Oracle inputs of `_repost_unfilled_leg`: the fetched top of book (absent
on fetch failure) and the leg returned by `place_maker_bid`. -/
structure RepostEnv where
  tob : Option TopOfBook
  new_order_id : String
  placed_state : OrderState
deriving DecidableEq, Repr

/-- `_hold_filled_leg` (`bot/engine.py:508`): cancel the unfilled leg when
it is `LIVE`, then `mark_awaiting_resolution` on the set. -/
def hold_filled_leg (now : ℚ) (cs : CompleteSet) :
    List EngineAction × CompleteSet :=
  let acts :=
    match unfilled_leg cs with
    | some u =>
        if u.state = OrderState.LIVE then [EngineAction.cancelOrder u.order_id]
        else []
    | none => []
  (acts, markAwaitingSet cs now)

/-- `_repost_unfilled_leg` (`bot/engine.py:449`): cancel, refetch the book,
price one improve step above best bid capped below best ask, apply the
profitability ceiling `1 - filled.price - min_edge`, and repost (or hold
for resolution when no profitable price exists). -/
def repost_unfilled_leg (cfg : BotConfig) (env : RepostEnv) (now : ℚ)
    (cs : CompleteSet) (unfilled : LegOrder) :
    List EngineAction × CompleteSet :=
  let cancelActs := [EngineAction.cancelOrder unfilled.order_id]
  match env.tob with
  | none => (cancelActs, cs)
  | some tob =>
    let tick := cfg.tick_size
    let aggressive₀ :=
      round_to_tick (min (tob.best_bid + 2 * tick) (tob.best_ask - tick)) tick
    let capped :=
      match filled_leg cs with
      | some f =>
        let max_price :=
          round_to_tick (1 - f.price - cfg.min_edge_cents / 100) tick
        if max_price < aggressive₀ then
          if max_price ≤ 0 then none else some max_price
        else some aggressive₀
      | none => some aggressive₀
    match capped with
    | none =>
      let held := hold_filled_leg now cs
      (cancelActs ++ held.1, held.2)
    | some price =>
      let new_leg : LegOrder :=
        { order_id := env.new_order_id, token_id := unfilled.token_id,
          side := unfilled.side, price := price, size := unfilled.size,
          state := env.placed_state, placed_at := now, filled_at := none }
      let cs' :=
        if unfilled.side = TokenSide.UP then { cs with up_leg := some new_leg }
        else { cs with down_leg := some new_leg }
      (cancelActs ++
        [EngineAction.placeBid unfilled.token_id unfilled.side price unfilled.size],
       cs')

/-- The per-set body of `_manage_one_leg_sets` (`bot/engine.py:420`): skip
sets not in `ONE_LEG_FILLED` or without an unfilled leg; past the one-leg
timeout, hold the filled leg; otherwise repost a stale `LIVE` unfilled leg.
`none` models the `cs.filled_leg().filled_at` access raising on `None`
(impossible when `unfilled_leg` is present, proved below). -/
def manage_one_leg_set (cfg : BotConfig) (env : RepostEnv) (now : ℚ)
    (cs : CompleteSet) : Option (List EngineAction × CompleteSet) :=
  if cs.state ≠ SetState.ONE_LEG_FILLED then some ([], cs)
  else
    match unfilled_leg cs with
    | none => some ([], cs)
    | some unfilled =>
      match filled_leg cs with
      | none => none
      | some f =>
        if cfg.one_leg_timeout_seconds < now - pyOrQ f.filled_at cs.created_at then
          some (hold_filled_leg now cs)
        else if unfilled.state = OrderState.LIVE ∧ 10 < now - unfilled.placed_at then
          some (repost_unfilled_leg cfg env now cs unfilled)
        else some ([], cs)

-- ── Engine redemption step (`bot/engine.py:320-416`) ────────────────

/-- Oracle inputs of one `_attempt_redemption` call: the on-chain
resolution check, the redeem result, and the risk governor's
`suspected_blacklist` flag as read after `record_redemption_failure`. -/
structure RedemptionEnv where
  resolved : Bool
  redeem_success : Bool
  redeem_error : String
  suspected_blacklist : Bool
deriving DecidableEq, Repr

/-- Effects issued by `_attempt_redemption`, in program order. -/
inductive RedemptionAction
  | checkResolved (condition_id : String)
  | redeem (condition_id : String)
  | recordRedemptionSuccess
  | markRedeemed (set_id : String)
  | recordPnl (amount : ℚ)
  | markAbandoned (set_id : String) (loss : ℚ)
  | markRedemptionFailed (set_id err : String)
  | recordRedemptionFailure
  | markPermanentlyFailed (set_id : String)
deriving DecidableEq, Repr

/-- Lookup in the `_redemption_check_times` association (engine field,
`bot/engine.py:53`). -/
def lookupTime (m : List (String × ℚ)) (k : String) : Option ℚ :=
  (m.find? (fun p => p.1 == k)).map (fun p => p.2)

/-- `self._redemption_check_times[cid] = now`. -/
def setTime (m : List (String × ℚ)) (k : String) (v : ℚ) : List (String × ℚ) :=
  if (m.find? (fun p => p.1 == k)).isSome then
    m.map (fun p => if p.1 == k then (p.1, v) else p)
  else m ++ [(k, v)]

/-- `self._redemption_check_times.pop(cid, None)`. -/
def popTime (m : List (String × ℚ)) (k : String) : List (String × ℚ) :=
  m.filter (fun p => p.1 != k)

/-- The `already_redeemed` classification of `bot/engine.py:375`. -/
def already_redeemed_error (err : String) : Bool :=
  strContains (pyLower err) "no tokens redeemed" ||
  strContains (pyLower err) "already redeemed" ||
  strContains (pyLower err) "already be redeemed" ||
  strContains (pyLower err) "no positions found"

/-- `BotEngine._attempt_redemption` (`bot/engine.py:320`) as an effect
trace: returns the actions issued and the updated per-condition
check-times map.  The deadline warning (`bot/engine.py:346`) only logs. -/
def attempt_redemption (env : RedemptionEnv) (times : List (String × ℚ))
    (now : ℚ) (cs : CompleteSet) :
    List RedemptionAction × List (String × ℚ) :=
  match cs.window with
  | none => ([], times)
  | some w =>
    if w.condition_id = "" then ([], times)
    else if now - (lookupTime times w.condition_id).getD 0 < 30 then ([], times)
    else
      let times' := setTime times w.condition_id now
      if !env.resolved then
        ([RedemptionAction.checkResolved w.condition_id], times')
      else if env.redeem_success then
        ([RedemptionAction.checkResolved w.condition_id,
          RedemptionAction.redeem w.condition_id,
          RedemptionAction.recordRedemptionSuccess,
          RedemptionAction.markRedeemed cs.set_id,
          RedemptionAction.recordPnl (calculate_redemption_pnl cs)],
         popTime times' w.condition_id)
      else if already_redeemed_error env.redeem_error then
        match filled_leg cs with
        | some f =>
            ([RedemptionAction.checkResolved w.condition_id,
              RedemptionAction.redeem w.condition_id,
              RedemptionAction.markAbandoned cs.set_id (-(f.price * f.size))],
             popTime times' w.condition_id)
        | none =>
            ([RedemptionAction.checkResolved w.condition_id,
              RedemptionAction.redeem w.condition_id,
              RedemptionAction.markRedeemed cs.set_id],
             popTime times' w.condition_id)
      else
        let base :=
          [RedemptionAction.checkResolved w.condition_id,
           RedemptionAction.redeem w.condition_id,
           RedemptionAction.markRedemptionFailed cs.set_id env.redeem_error,
           RedemptionAction.recordRedemptionFailure]
        if env.suspected_blacklist then
          (base ++ [RedemptionAction.markPermanentlyFailed cs.set_id,
                    RedemptionAction.recordPnl (-(combined_cost cs))],
           times')
        else (base, times')

-- ── Startup reload (`bot/position_tracker.py:164`) ──────────────────

/-- A persisted trade record (`CompleteSet.to_dict`, `bot/types.py:154`)
with its numeric fields already converted; only the state-name parse can
fail in the model (Python additionally skips records whose field
reconstruction raises, which well-typed records cannot). -/
structure TradeRecord where
  set_id : String
  state : String
  condition_id : String
  window_id : String
  event_id : String
  question : String
  up_token_id : String
  down_token_id : String
  end_time_epoch : ℚ
  slug : Option String
  up_leg : Option LegOrder
  down_leg : Option LegOrder
  created_at : ℚ
  completed_at : Option ℚ
  pnl : Option ℚ
  redemption_attempts : ℕ
  last_redemption_error : Option String
deriving DecidableEq, Repr

/-- `SetState[state_name]` (`bot/position_tracker.py:191`): enum lookup by
name, `KeyError` ⇒ skip. -/
def parse_set_state (name : String) : Option SetState :=
  if name = "QUOTING" then some SetState.QUOTING
  else if name = "ONE_LEG_FILLED" then some SetState.ONE_LEG_FILLED
  else if name = "COMPLETE" then some SetState.COMPLETE
  else if name = "AWAITING_RESOLUTION" then some SetState.AWAITING_RESOLUTION
  else if name = "ABANDONED" then some SetState.ABANDONED
  else if name = "REDEEMED" then some SetState.REDEEMED
  else if name = "REDEMPTION_FAILED" then some SetState.REDEMPTION_FAILED
  else none

/-- The set rebuilt by `load` from one record
(`bot/position_tracker.py:196-222`); `rec.get("condition_id") or
rec.get("window_id", "")` falls back on the window id when the condition
id is empty. -/
def restore_set (r : TradeRecord) (st : SetState) : CompleteSet :=
  { set_id := r.set_id
    window := some
      { condition_id := if r.condition_id = "" then r.window_id else r.condition_id
        question := r.question
        up_token_id := r.up_token_id
        down_token_id := r.down_token_id
        end_time_epoch := r.end_time_epoch
        slug := r.slug
        event_id := r.event_id }
    up_leg := r.up_leg
    down_leg := r.down_leg
    state := st
    created_at := r.created_at
    completed_at := r.completed_at
    pnl := r.pnl
    redemption_attempts := r.redemption_attempts
    last_redemption_error := r.last_redemption_error }

/-- The `active_states` set of `load` (`bot/position_tracker.py:180`). -/
def loadActiveStates : List SetState :=
  [SetState.COMPLETE, SetState.ONE_LEG_FILLED, SetState.AWAITING_RESOLUTION]

/-- The record loop of `PositionTracker.load` (`bot/position_tracker.py:187`):
records whose state name does not parse are skipped; parsed records go to
the active collection exactly when their state is in `loadActiveStates`,
and to the completed history otherwise. -/
def load_records : List TradeRecord → List CompleteSet × List CompleteSet
  | [] => ([], [])
  | r :: rest =>
    let tail := load_records rest
    match parse_set_state r.state with
    | none => tail
    | some st =>
      if st ∈ loadActiveStates then (restore_set r st :: tail.1, tail.2)
      else (tail.1, restore_set r st :: tail.2)

-- ── Concrete inputs used by witnesses and counterexamples ───────────

/-- A single-leg hold as the redemption loop sees it: UP leg cancelled at
the one-leg timeout, DOWN leg filled at $0.40 for 5 shares. -/
def bugUpLeg : LegOrder :=
  { order_id := "oU", token_id := "tU", side := TokenSide.UP, price := 3/10,
    size := 5, state := OrderState.CANCELLED, placed_at := 0, filled_at := none }

def bugDownLeg : LegOrder :=
  { order_id := "oD", token_id := "tD", side := TokenSide.DOWN, price := 2/5,
    size := 5, state := OrderState.FILLED, placed_at := 0, filled_at := some 50 }

def bugWindow : MarketWindow :=
  { condition_id := "0xbug", question := "q", up_token_id := "tU",
    down_token_id := "tD", end_time_epoch := 60, slug := none, event_id := "e" }

def bugSet : CompleteSet :=
  { set_id := "sB", window := some bugWindow, up_leg := some bugUpLeg,
    down_leg := some bugDownLeg, state := SetState.AWAITING_RESOLUTION,
    created_at := 0, completed_at := some 60, pnl := none,
    redemption_attempts := 0, last_redemption_error := none }

/-- `bugSet` as `mark_redeemed` leaves it: REDEEMED with the
complete-set PnL formula applied to a single-leg hold. -/
def bugSetRedeemed : CompleteSet :=
  { bugSet with state := SetState.REDEEMED, completed_at := some 100,
                pnl := some (3/2) }

def c4Window : MarketWindow :=
  { condition_id := "0xc4", question := "btc updown", up_token_id := "u4",
    down_token_id := "d4", end_time_epoch := 0, slug := none, event_id := "e4" }

/-- UP book 0.45/0.50, DOWN book 0.51/0.56, depth 20: our bids land at
0.46 and 0.52, combined 0.98, edge exactly 2¢ = the default threshold. -/
def c4UpTob : TopOfBook :=
  { token_id := "u4", best_bid := 9/20, best_ask := 1/2, bid_size := 20,
    ask_size := 20 }

def c4DownTob : TopOfBook :=
  { token_id := "d4", best_bid := 51/100, best_ask := 14/25, bid_size := 20,
    ask_size := 20 }

/-- DOWN book 0.52/0.57: our bids land at 0.46 and 0.53, edge 1¢ < 2¢. -/
def c4ThinDownTob : TopOfBook :=
  { token_id := "d4", best_bid := 13/25, best_ask := 57/100, bid_size := 20,
    ask_size := 20 }

-- ── C1 ──────────────────────────────────────────────────────────────

/-- Claim C1: when `payoutDenominator(condition_id) = 0` the live redemption
path `_redeem_onchain_sync` submits no `redeemPositions` transaction
(empty submission record) and returns `(false, msg)` with the
payouts-not-set message; the function holds no set or leg state, so none
changes. -/
theorem C1_unresolved_no_transaction (submit : String → Bool × String) :
    redeem_onchain_sync (some 0) submit = ((false, PAYOUTS_NOT_SET_MSG), []) :=
  rfl

-- ── C2 ──────────────────────────────────────────────────────────────

/-- Claim C2 (code bug): for the single-leg hold `bugSet` (only the DOWN
leg filled, at 0.40 × 5), `mark_redeemed` stores
`round((1 − (0.30 + 0.40)) · 5, 4) = 1.5` on the set, while the engine's
own `_calculate_redemption_pnl` — the value it logs and records in the
risk governor for the same redemption — is `(1 − filled.price) ·
filled.size = 3`.  The claim's single-leg formula and the stored PnL
disagree. -/
theorem C2_mark_redeemed_pnl_divergence :
    applyOp (TrackerOp.markRedeemed "sB" 100)
        { active := [bugSet], completed := [] } =
      some { active := [], completed := [bugSetRedeemed] } ∧
    mark_redeemed_pnl bugUpLeg bugDownLeg = 3/2 ∧
    calculate_redemption_pnl bugSet = 3 ∧
    (1 - bugDownLeg.price) * bugDownLeg.size = 3 ∧
    mark_redeemed_pnl bugUpLeg bugDownLeg ≠
      (1 - bugDownLeg.price) * bugDownLeg.size := by
  have hpnl : mark_redeemed_pnl bugUpLeg bugDownLeg = 3/2 := by
    norm_num [mark_redeemed_pnl, pyRound, roundHalfEven, ratFloorZ,
      bugUpLeg, bugDownLeg]
  refine ⟨?_, hpnl, ?_, ?_, ?_⟩
  · simp [applyOp, List.find?, bugSet, finalize, bugSetRedeemed, hpnl]
  · have hf : filled_leg bugSet = some bugDownLeg := by
      simp [filled_leg, legFilledB, bugSet, bugUpLeg, bugDownLeg]
    have h1 : calculate_redemption_pnl bugSet = single_leg_pnl bugSet := by
      simp [calculate_redemption_pnl, bugSet, bugUpLeg, bugDownLeg,
        single_leg_pnl]
    rw [h1]
    simp only [single_leg_pnl, hf]
    norm_num [bugDownLeg]
  · norm_num [bugDownLeg]
  · rw [hpnl]; norm_num [bugDownLeg]

-- ── C4 ──────────────────────────────────────────────────────────────

/-- Claim C4 counterexample: on the default configuration and the books
`c4UpTob`/`c4DownTob`, which pass every book-quality gate, the computed
edge equals `min_edge_cents` exactly — and `evaluate_window` quotes
(`should_quote = true`): equality does NOT reject. -/
theorem C4_counterexample :
    check_book_quality defaultConfig c4UpTob c4DownTob = "" ∧
    edge_cents_of defaultConfig c4UpTob c4DownTob =
      defaultConfig.min_edge_cents ∧
    (evaluate_window defaultConfig c4Window c4UpTob c4DownTob 1).should_quote =
      true := by
  have hq : check_book_quality defaultConfig c4UpTob c4DownTob = "" := by
    norm_num [check_book_quality, TopOfBook.spread, defaultConfig,
      c4UpTob, c4DownTob]
  have hup : calculate_bid_price defaultConfig c4UpTob = 23/50 := by
    norm_num [calculate_bid_price, round_to_tick, pyRound, roundHalfEven,
      ratFloorZ, pyIntTrunc, min_def, defaultConfig, c4UpTob]
  have hdown : calculate_bid_price defaultConfig c4DownTob = 13/25 := by
    norm_num [calculate_bid_price, round_to_tick, pyRound, roundHalfEven,
      ratFloorZ, pyIntTrunc, min_def, defaultConfig, c4DownTob]
  have hedge : edge_cents_of defaultConfig c4UpTob c4DownTob = 2 := by
    rw [edge_cents_of, hup, hdown]; norm_num
  refine ⟨hq, by rw [hedge]; norm_num [defaultConfig], ?_⟩
  simp only [evaluate_window, hq, hedge, hup, hdown]
  norm_num [defaultConfig]

/-- Claim C4 amended: the edge gate of `evaluate_window` rejects exactly
the strict shortfalls: whenever `edge_cents < min_edge_cents` the window is
not quoted; at `edge_cents = min_edge_cents` the edge gate passes
(equivalently `up_bid + down_bid ≤ 1 − min_edge` with equality accepted,
as the counterexample shows). -/
theorem C4_amended_strict_edge_reject (cfg : BotConfig) (w : MarketWindow)
    (up_tob down_tob : TopOfBook) (rm : ℚ)
    (h : edge_cents_of cfg up_tob down_tob < cfg.min_edge_cents) :
    (evaluate_window cfg w up_tob down_tob rm).should_quote = false := by
  by_cases h1 : check_book_quality cfg up_tob down_tob ≠ ""
  · simp [evaluate_window, h1]
  · simp [evaluate_window, h1, h]

/-- Witness for C4 amended at a concrete input: 1¢ edge is rejected. -/
theorem C4_amended_strict_edge_reject_witness :
    edge_cents_of defaultConfig c4UpTob c4ThinDownTob <
      defaultConfig.min_edge_cents ∧
    (evaluate_window defaultConfig c4Window c4UpTob c4ThinDownTob 1).should_quote =
      false := by
  have h : edge_cents_of defaultConfig c4UpTob c4ThinDownTob <
      defaultConfig.min_edge_cents := by
    norm_num [edge_cents_of, calculate_bid_price, round_to_tick, pyRound,
      roundHalfEven, ratFloorZ, pyIntTrunc, min_def, defaultConfig,
      c4UpTob, c4ThinDownTob]
  exact ⟨h,
    C4_amended_strict_edge_reject defaultConfig c4Window c4UpTob c4ThinDownTob 1 h⟩

-- ── C5 ──────────────────────────────────────────────────────────────

/-- Claim C5 counterexample: a crossed book (best bid 0.60 above best ask
0.50, both positive) is parsed into a snapshot — `_parse_book_response`
never checks `best_ask ≥ best_bid`, so the result is not absent. -/
theorem C5_counterexample :
    parse_book_response "tok5"
        [{ price := 3/5, size := 10 }] [{ price := 1/2, size := 5 }] =
      some { token_id := "tok5", best_bid := 3/5, best_ask := 1/2,
             bid_size := 10, ask_size := 5 } ∧
    ({ token_id := "tok5", best_bid := 3/5, best_ask := 1/2,
       bid_size := 10, ask_size := 5 } : TopOfBook).best_ask <
      ({ token_id := "tok5", best_bid := 3/5, best_ask := 1/2,
         bid_size := 10, ask_size := 5 } : TopOfBook).best_bid := by
  constructor
  · norm_num [parse_book_response, lastEntry]
  · norm_num

/-- Claim C5 amended: `_parse_book_response` yields a snapshot only when
both sides are non-empty and both best prices are strictly positive (a
returned snapshot always has `best_bid > 0` and `best_ask > 0`); the
crossed-book condition `best_ask ≥ best_bid` is not enforced. -/
theorem C5_amended_positive_prices (tid : String) (bids asks : List BookLevel)
    (t : TopOfBook) (h : parse_book_response tid bids asks = some t) :
    0 < t.best_bid ∧ 0 < t.best_ask := by
  unfold parse_book_response at h
  split at h
  next =>
    rename_i bb ba hb ha
    by_cases hle : bb.price ≤ 0 ∨ ba.price ≤ 0
    · rw [if_pos hle] at h; simp at h
    · rw [if_neg hle] at h
      rw [Option.some_inj] at h
      subst h
      push_neg at hle
      exact ⟨hle.1, hle.2⟩
  next => simp at h

/-- Witness for C5 amended at a concrete (healthy) book. -/
theorem C5_amended_positive_prices_witness :
    parse_book_response "tok5w"
        [{ price := 9/20, size := 20 }] [{ price := 1/2, size := 20 }] =
      some { token_id := "tok5w", best_bid := 9/20, best_ask := 1/2,
             bid_size := 20, ask_size := 20 } ∧
    (0 : ℚ) < (9/20 : ℚ) ∧ (0 : ℚ) < (1/2 : ℚ) := by
  have h : parse_book_response "tok5w"
      [{ price := 9/20, size := 20 }] [{ price := 1/2, size := 20 }] =
      some { token_id := "tok5w", best_bid := 9/20, best_ask := 1/2,
             bid_size := 20, ask_size := 20 } := by
    norm_num [parse_book_response, lastEntry]
  exact ⟨h,
    C5_amended_positive_prices "tok5w"
      [{ price := 9/20, size := 20 }] [{ price := 1/2, size := 20 }]
      { token_id := "tok5w", best_bid := 9/20, best_ask := 1/2,
        bid_size := 20, ask_size := 20 } h⟩

-- ── C3 machinery: the leg/state coherence invariant ─────────────────

/-- Per-set coherence between `state` and the leg fill flags: `COMPLETE`
implies both legs filled, and both legs filled rules out the pre-completion
states `QUOTING` and `ONE_LEG_FILLED`. -/
def SetInv (s : CompleteSet) : Prop :=
  (s.state = SetState.COMPLETE → upFilled s = true ∧ downFilled s = true) ∧
  (upFilled s = true → downFilled s = true →
    s.state ≠ SetState.QUOTING ∧ s.state ≠ SetState.ONE_LEG_FILLED)

/-- The invariant over every set the tracker holds. -/
def StateInv (ts : TrackerState) : Prop :=
  ∀ s, s ∈ ts.active ++ ts.completed → SetInv s

theorem StateInv.active_inv {ts : TrackerState} (h : StateInv ts) :
    ∀ s ∈ ts.active, SetInv s :=
  fun s hs => h s (List.mem_append.mpr (Or.inl hs))

theorem StateInv.completed_inv {ts : TrackerState} (h : StateInv ts) :
    ∀ s ∈ ts.completed, SetInv s :=
  fun s hs => h s (List.mem_append.mpr (Or.inr hs))

theorem stateInv_of_parts {ts : TrackerState}
    (ha : ∀ s ∈ ts.active, SetInv s) (hc : ∀ s ∈ ts.completed, SetInv s) :
    StateInv ts := by
  intro s hs
  rcases List.mem_append.mp hs with h | h
  · exact ha s h
  · exact hc s h

theorem forall_mem_modifyFirst {α : Type} {p : α → Bool} {f : α → α}
    {P : α → Prop} : ∀ {l : List α}, (∀ y ∈ l, P y) →
    (∀ y ∈ l, P y → P (f y)) → ∀ x ∈ modifyFirst p f l, P x := by
  intro l
  induction l with
  | nil => intro _ _ x hx; cases hx
  | cons a as ih =>
    intro hl hf x hx
    unfold modifyFirst at hx
    by_cases hp : p a
    · rw [if_pos hp] at hx
      rcases List.mem_cons.mp hx with h | h
      · exact h ▸ hf a (List.mem_cons_self a as) (hl a (List.mem_cons_self a as))
      · exact hl x (List.mem_cons_of_mem a h)
    · rw [if_neg hp] at hx
      rcases List.mem_cons.mp hx with h | h
      · exact h ▸ hl a (List.mem_cons_self a as)
      · exact ih (fun y hy => hl y (List.mem_cons_of_mem a hy))
          (fun y hy => hf y (List.mem_cons_of_mem a hy)) x h

theorem setInv_mkNewSet (w : MarketWindow) (u d : LegOrder) (sid : String)
    (now : ℚ) (hu : u.state = OrderState.LIVE) :
    SetInv (mkNewSet w u d sid now) := by
  constructor
  · intro hc
    simp [mkNewSet] at hc
  · intro hup _
    simp [upFilled, legFilledB, mkNewSet, hu] at hup

theorem setInv_update_set_state (s : CompleteSet) (now : ℚ)
    (h : s.state = SetState.COMPLETE → upFilled s = true ∨ downFilled s = true) :
    SetInv (update_set_state s now) := by
  unfold update_set_state
  by_cases h1 : (upFilled s && downFilled s) = true
  · rw [if_pos h1]
    rw [Bool.and_eq_true] at h1
    exact ⟨fun _ => h1, fun _ _ => ⟨by simp, by simp⟩⟩
  · rw [if_neg h1]
    by_cases h2 : (upFilled s || downFilled s) = true
    · rw [if_pos h2]
      by_cases h3 : s.state ≠ SetState.ONE_LEG_FILLED
      · rw [if_pos h3]
        constructor
        · intro hc; exact absurd hc (by simp)
        · intro hu hd
          exact absurd (by rw [Bool.and_eq_true]; exact ⟨hu, hd⟩) h1
      · rw [if_neg h3]
        push_neg at h3
        constructor
        · intro hc; rw [h3] at hc; cases hc
        · intro hu hd
          exact absurd (by rw [Bool.and_eq_true]; exact ⟨hu, hd⟩) h1
    · rw [if_neg h2]
      constructor
      · intro hc
        rcases h hc with hup | hdn
        · exact absurd (by rw [Bool.or_eq_true]; exact Or.inl hup) h2
        · exact absurd (by rw [Bool.or_eq_true]; exact Or.inr hdn) h2
      · intro hu _
        exact absurd (by rw [Bool.or_eq_true]; exact Or.inl hu) h2

theorem setInv_apply_leg_update (s : CompleteSet) (tid : String)
    (st : OrderState) (now : ℚ) (h : SetInv s) :
    SetInv (apply_leg_update s tid st now) := by
  unfold apply_leg_update
  by_cases h1 : legTokenMatches s.up_leg tid
  · rw [if_pos h1]
    apply setInv_update_set_state
    intro hc
    exact Or.inr (h.1 hc).2
  · rw [if_neg h1]
    by_cases h2 : legTokenMatches s.down_leg tid
    · rw [if_pos h2]
      apply setInv_update_set_state
      intro hc
      exact Or.inl (h.1 hc).1
    · rw [if_neg h2]; exact h

theorem setInv_markAwaitingSet (s : CompleteSet) (now : ℚ) (h : SetInv s) :
    SetInv (markAwaitingSet s now) := by
  unfold markAwaitingSet
  by_cases h1 : s.state = SetState.COMPLETE ∨ s.state = SetState.ONE_LEG_FILLED
  · rw [if_pos h1]
    exact ⟨fun hc => absurd hc (by simp), fun _ _ => ⟨by simp, by simp⟩⟩
  · rw [if_neg h1]; exact h

theorem terminal_not_open (st : SetState)
    (hst : terminal_set_state st = true) :
    st ≠ SetState.QUOTING ∧ st ≠ SetState.ONE_LEG_FILLED ∧
    st ≠ SetState.COMPLETE := by
  cases st <;> simp_all [terminal_set_state]

theorem setInv_terminal_mark (s : CompleteSet) (st : SetState)
    (c p : Option ℚ) (hst : terminal_set_state st = true) :
    SetInv { s with state := st, completed_at := c, pnl := p } := by
  constructor
  · intro hc
    exact absurd hc (terminal_not_open st hst).2.2
  · intro _ _
    exact ⟨(terminal_not_open st hst).1, (terminal_not_open st hst).2.1⟩

theorem stateInv_finalize {ts : TrackerState} (h : StateInv ts)
    (target : CompleteSet) (htarget : SetInv target) :
    StateInv (finalize ts target) := by
  apply stateInv_of_parts
  · intro s hs
    exact h.active_inv s (List.mem_filter.mp hs).1
  · intro s hs
    rcases List.mem_append.mp hs with h' | h'
    · exact h.completed_inv s h'
    · rw [List.mem_singleton] at h'
      subst h'
      exact htarget

theorem stateInv_modifyActive {ts : TrackerState} (h : StateInv ts)
    (p : CompleteSet → Bool) (f : CompleteSet → CompleteSet)
    (hf : ∀ y ∈ ts.active, SetInv y → SetInv (f y)) :
    StateInv { ts with active := modifyFirst p f ts.active } := by
  apply stateInv_of_parts
  · exact forall_mem_modifyFirst h.active_inv hf
  · exact h.completed_inv

/-- Every reachable tracker state satisfies the coherence invariant. -/
theorem reachable_inv {ts : TrackerState} (h : Reachable ts) : StateInv ts := by
  induction h with
  | init =>
    intro s hs
    simp [trackerInit] at hs
  | @step ts ts' op hre hok happ ih =>
    cases op with
    | addSet w u d sid now =>
      simp only [applyOp] at happ
      rw [Option.some_inj] at happ
      subst happ
      apply stateInv_of_parts
      · intro s hs
        rcases List.mem_append.mp hs with h' | h'
        · exact ih.active_inv s h'
        · rw [List.mem_singleton] at h'
          subst h'
          simp only [opOK, Bool.and_eq_true, beq_iff_eq] at hok
          exact setInv_mkNewSet w u d sid now hok.1
      · exact ih.completed_inv
    | updateLegState sid tid st now =>
      simp only [applyOp] at happ
      rw [Option.some_inj] at happ
      subst happ
      exact stateInv_modifyActive ih _ _
        (fun y _ hy => setInv_apply_leg_update y tid st now hy)
    | markAbandoned sid loss now =>
      simp only [applyOp] at happ
      split at happ
      · rw [Option.some_inj] at happ
        subst happ
        exact ih
      · rw [Option.some_inj] at happ
        subst happ
        exact stateInv_finalize ih _
          (setInv_terminal_mark _ SetState.ABANDONED _ _ rfl)
    | markAwaitingResolution sid now =>
      simp only [applyOp] at happ
      rw [Option.some_inj] at happ
      subst happ
      exact stateInv_modifyActive ih _ _
        (fun y _ hy => setInv_markAwaitingSet y now hy)
    | markRedeemed sid now =>
      simp only [applyOp] at happ
      split at happ
      · rw [Option.some_inj] at happ
        subst happ
        exact ih
      · split at happ
        · rw [Option.some_inj] at happ
          subst happ
          exact stateInv_finalize ih _
            (setInv_terminal_mark _ SetState.REDEEMED _ _ rfl)
        · exact absurd happ (by simp)
    | markRedemptionFailed sid err =>
      simp only [applyOp] at happ
      rw [Option.some_inj] at happ
      subst happ
      exact stateInv_modifyActive ih _ _ (fun y _ hy => hy)
    | markPermanentlyFailed sid now =>
      simp only [applyOp] at happ
      split at happ
      · rw [Option.some_inj] at happ
        subst happ
        exact ih
      · rw [Option.some_inj] at happ
        subst happ
        exact stateInv_finalize ih _
          (setInv_terminal_mark _ SetState.REDEMPTION_FAILED _ _ rfl)

-- ── C3 concrete trace ───────────────────────────────────────────────

def exWindow : MarketWindow :=
  { condition_id := "0xc3", question := "q3", up_token_id := "t3u",
    down_token_id := "t3d", end_time_epoch := 900, slug := none,
    event_id := "e3" }

def exUpLive : LegOrder :=
  { order_id := "o3u", token_id := "t3u", side := TokenSide.UP, price := 9/20,
    size := 5, state := OrderState.LIVE, placed_at := 100, filled_at := none }

def exDownLive : LegOrder :=
  { order_id := "o3d", token_id := "t3d", side := TokenSide.DOWN,
    price := 51/100, size := 5, state := OrderState.LIVE, placed_at := 100,
    filled_at := none }

def exUpFilled : LegOrder :=
  { exUpLive with state := OrderState.FILLED, filled_at := some 110 }

def exDownFilled : LegOrder :=
  { exDownLive with state := OrderState.FILLED, filled_at := some 120 }

/-- Quote a set, fill both legs, then let the redemption loop move it to
`AWAITING_RESOLUTION` once the window ends. -/
def exTrace : List TrackerOp :=
  [TrackerOp.addSet exWindow exUpLive exDownLive "s3" 100,
   TrackerOp.updateLegState "s3" "t3u" OrderState.FILLED 110,
   TrackerOp.updateLegState "s3" "t3d" OrderState.FILLED 120,
   TrackerOp.markAwaitingResolution "s3" 130]

def exSet0 : CompleteSet := mkNewSet exWindow exUpLive exDownLive "s3" 100

def exSet1 : CompleteSet :=
  { set_id := "s3", window := some exWindow, up_leg := some exUpFilled,
    down_leg := some exDownLive, state := SetState.ONE_LEG_FILLED,
    created_at := 100, completed_at := none, pnl := none,
    redemption_attempts := 0, last_redemption_error := none }

def exSet2 : CompleteSet :=
  { set_id := "s3", window := some exWindow, up_leg := some exUpFilled,
    down_leg := some exDownFilled, state := SetState.COMPLETE,
    created_at := 100, completed_at := some 120, pnl := none,
    redemption_attempts := 0, last_redemption_error := none }

/-- The set `exTrace` produces: both legs `FILLED`, state
`AWAITING_RESOLUTION`. -/
def exSet : CompleteSet :=
  { set_id := "s3", window := some exWindow, up_leg := some exUpFilled,
    down_leg := some exDownFilled, state := SetState.AWAITING_RESOLUTION,
    created_at := 100, completed_at := some 120, pnl := none,
    redemption_attempts := 0, last_redemption_error := none }

def exState : TrackerState := { active := [exSet], completed := [] }

theorem ex_step1 :
    applyOp (TrackerOp.addSet exWindow exUpLive exDownLive "s3" 100)
      trackerInit = some { active := [exSet0], completed := [] } := by
  simp [applyOp, trackerInit, exSet0]

theorem ex_step2 :
    applyOp (TrackerOp.updateLegState "s3" "t3u" OrderState.FILLED 110)
      { active := [exSet0], completed := [] } =
      some { active := [exSet1], completed := [] } := by
  simp [applyOp, modifyFirst, apply_leg_update, legTokenMatches, touchLeg,
    pyFalsyOpt, update_set_state, upFilled, downFilled, legFilledB,
    exSet0, mkNewSet, exSet1, exUpFilled, exUpLive, exDownLive]

theorem ex_step3 :
    applyOp (TrackerOp.updateLegState "s3" "t3d" OrderState.FILLED 120)
      { active := [exSet1], completed := [] } =
      some { active := [exSet2], completed := [] } := by
  simp [applyOp, modifyFirst, apply_leg_update, legTokenMatches, touchLeg,
    pyFalsyOpt, update_set_state, upFilled, downFilled, legFilledB,
    exSet1, exSet2, exUpFilled, exDownFilled, exUpLive, exDownLive]

theorem ex_step4 :
    applyOp (TrackerOp.markAwaitingResolution "s3" 130)
      { active := [exSet2], completed := [] } = some exState := by
  simp [applyOp, modifyFirst, markAwaitingSet, pyFalsyOpt,
    exSet2, exSet, exState, exUpFilled, exDownFilled]

theorem exTrace_run : applyOps exTrace trackerInit = some exState := by
  unfold exTrace
  simp only [applyOps, ex_step1, ex_step2, ex_step3, ex_step4]

theorem reachable_exState : Reachable exState :=
  reachable_applyOps exTrace Reachable.init
    (by
      intro op hop
      simp only [exTrace, List.mem_cons, List.not_mem_nil, or_false] at hop
      rcases hop with rfl | rfl | rfl | rfl <;>
        simp [opOK, exUpLive, exDownLive])
    exTrace_run

-- ── C3 ──────────────────────────────────────────────────────────────

/-- Claim C3 counterexample: the tracker state `exState` is reachable
(quote, fill both legs, window ends), its set has both legs `FILLED`, yet
its state is `AWAITING_RESOLUTION`, not `COMPLETE` — the claimed
equivalence `state = COMPLETE ⇔ both legs FILLED` fails right-to-left on
reachable states. -/
theorem C3_counterexample :
    Reachable exState ∧ exSet ∈ exState.active ∧
    upFilled exSet = true ∧ downFilled exSet = true ∧
    exSet.state ≠ SetState.COMPLETE :=
  ⟨reachable_exState, by simp [exState],
   by simp [upFilled, legFilledB, exSet, exUpFilled],
   by simp [downFilled, legFilledB, exSet, exDownFilled],
   by simp [exSet]⟩

/-- Claim C3 amended: for every set reachable through tracker operations,
`state = COMPLETE` implies both legs `FILLED` (the left-to-right direction
holds everywhere), and both legs `FILLED` implies the state is neither
`QUOTING` nor `ONE_LEG_FILLED` — the converse direction holds only up to
the post-completion states (`AWAITING_RESOLUTION` and the terminal
states), which retain both filled legs, as the counterexample shows. -/
theorem C3_amended_invariant (ts : TrackerState) (h : Reachable ts)
    (s : CompleteSet) (hs : s ∈ ts.active ++ ts.completed) :
    (s.state = SetState.COMPLETE → upFilled s = true ∧ downFilled s = true) ∧
    (upFilled s = true → downFilled s = true →
      s.state ≠ SetState.QUOTING ∧ s.state ≠ SetState.ONE_LEG_FILLED) :=
  reachable_inv h s hs

/-- Witness for C3 amended at the reachable state `exState`. -/
theorem C3_amended_invariant_witness :
    (exSet.state = SetState.COMPLETE →
       upFilled exSet = true ∧ downFilled exSet = true) ∧
    (upFilled exSet = true → downFilled exSet = true →
      exSet.state ≠ SetState.QUOTING ∧
      exSet.state ≠ SetState.ONE_LEG_FILLED) :=
  C3_amended_invariant exState reachable_exState exSet (by simp [exState])

-- ── C6 ──────────────────────────────────────────────────────────────

/-- Claim C6: for every list of active sets and every counter state, when
`0 < min_risk_multiplier ≤ 1` and `0 < loss_streak_scale ≤ 1`, the risk
multiplier lies in `[min_risk_multiplier, 1]`. -/
theorem C6_risk_multiplier_bounds (cfg : BotConfig) (rs : RiskState)
    (active : List CompleteSet)
    (h1 : 0 < cfg.min_risk_multiplier) (h2 : cfg.min_risk_multiplier ≤ 1)
    (h3 : 0 < cfg.loss_streak_scale) (h4 : cfg.loss_streak_scale ≤ 1) :
    cfg.min_risk_multiplier ≤ risk_multiplier cfg rs active ∧
    risk_multiplier cfg rs active ≤ 1 := by
  have hs1 : streak_multiplier cfg rs ≤ 1 := by
    unfold streak_multiplier
    split_ifs with h
    · exact le_refl 1
    · exact max_le (pow_le_one₀ h3.le h4) h2
  have hs0 : 0 ≤ streak_multiplier cfg rs := by
    unfold streak_multiplier
    split_ifs with h
    · exact zero_le_one
    · exact le_trans h1.le (le_max_right _ _)
  have he1 : exposure_multiplier cfg active ≤ 1 := by
    unfold exposure_multiplier
    split_ifs with hA hB
    · exact le_refl 1
    · exact le_refl 1
    · exact max_le (by linarith [not_lt.mp hB]) h2
  have he0 : 0 ≤ exposure_multiplier cfg active := by
    unfold exposure_multiplier
    split_ifs with hA hB
    · exact zero_le_one
    · exact zero_le_one
    · exact le_trans h1.le (le_max_right _ _)
  unfold risk_multiplier
  refine ⟨le_max_right _ _, max_le ?_ h2⟩
  calc streak_multiplier cfg rs * exposure_multiplier cfg active
      ≤ 1 * 1 := mul_le_mul hs1 he1 he0 zero_le_one
    _ = 1 := one_mul 1

def c6State : RiskState :=
  { daily_pnl := -10, day_start := 0, kill_switch := false,
    consecutive_losses := 5, consecutive_redemption_failures := 0 }

/-- Witness for C6 at the default configuration and a 5-loss streak. -/
theorem C6_risk_multiplier_bounds_witness :
    ((0:ℚ) < defaultConfig.min_risk_multiplier ∧
     defaultConfig.min_risk_multiplier ≤ 1 ∧
     (0:ℚ) < defaultConfig.loss_streak_scale ∧
     defaultConfig.loss_streak_scale ≤ 1) ∧
    (defaultConfig.min_risk_multiplier ≤
       risk_multiplier defaultConfig c6State [] ∧
     risk_multiplier defaultConfig c6State [] ≤ 1) :=
  ⟨⟨by norm_num [defaultConfig], by norm_num [defaultConfig],
    by norm_num [defaultConfig], by norm_num [defaultConfig]⟩,
   C6_risk_multiplier_bounds defaultConfig c6State []
     (by norm_num [defaultConfig]) (by norm_num [defaultConfig])
     (by norm_num [defaultConfig]) (by norm_num [defaultConfig])⟩

-- ── C7 ──────────────────────────────────────────────────────────────

/-- Claim C7: within a trading day (no daily rollover at the call),
`can_open_new_set` returns false exactly when the kill switch is set, or
`daily_pnl ≤ −max_daily_loss`, or the count of `QUOTING`/`ONE_LEG_FILLED`
sets is ≥ `max_open_sets`, or the `combined_cost` sum over non-terminal
sets is ≥ `max_total_exposure`. -/
theorem C7_can_open_new_set_iff (cfg : BotConfig) (rs : RiskState) (now : ℚ)
    (active : List CompleteSet) (h : now - rs.day_start < 86400) :
    ((can_open_new_set cfg rs now active).1 = false ↔
      (rs.kill_switch = true ∨ rs.daily_pnl ≤ -cfg.max_daily_loss ∨
       cfg.max_open_sets ≤ (count_open active : ℤ) ∨
       cfg.max_total_exposure ≤ total_exposure active)) := by
  have hr : maybe_reset_daily rs now = rs := by
    unfold maybe_reset_daily
    rw [if_neg (not_le.mpr h)]
  unfold can_open_new_set
  rw [hr]
  by_cases hk : rs.kill_switch <;>
    by_cases hp : rs.daily_pnl ≤ -cfg.max_daily_loss <;>
      by_cases ho : cfg.max_open_sets ≤ (count_open active : ℤ) <;>
        by_cases he : cfg.max_total_exposure ≤ total_exposure active <;>
          simp [hk, hp, ho, he]

def c7State : RiskState :=
  { daily_pnl := 0, day_start := 0, kill_switch := false,
    consecutive_losses := 0, consecutive_redemption_failures := 0 }

/-- Witness for C7 at the default configuration and an empty book of sets. -/
theorem C7_can_open_new_set_iff_witness :
    ((100:ℚ) - c7State.day_start < 86400) ∧
    ((can_open_new_set defaultConfig c7State 100 []).1 = false ↔
      (c7State.kill_switch = true ∨
       c7State.daily_pnl ≤ -defaultConfig.max_daily_loss ∨
       defaultConfig.max_open_sets ≤ (count_open [] : ℤ) ∨
       defaultConfig.max_total_exposure ≤ total_exposure [])) :=
  ⟨by norm_num [c7State],
   C7_can_open_new_set_iff defaultConfig c7State 100 []
     (by norm_num [c7State])⟩

-- ── C8 ──────────────────────────────────────────────────────────────

/-- Claim C8: a `ONE_LEG_FILLED` set whose filled leg is older than
`one_leg_timeout_seconds` is handled by one iteration of the one-leg step
by cancelling the unfilled leg when it is `LIVE` (and only then) and
transitioning the set to `AWAITING_RESOLUTION`, which is not a terminal
state — the set is held, not abandoned. -/
theorem C8_one_leg_timeout_hold (cfg : BotConfig) (env : RepostEnv) (now : ℚ)
    (cs : CompleteSet) (u f : LegOrder)
    (hstate : cs.state = SetState.ONE_LEG_FILLED)
    (hu : unfilled_leg cs = some u)
    (hf : filled_leg cs = some f)
    (ht : cfg.one_leg_timeout_seconds < now - pyOrQ f.filled_at cs.created_at) :
    manage_one_leg_set cfg env now cs =
      some ((if u.state = OrderState.LIVE
             then [EngineAction.cancelOrder u.order_id] else []),
            markAwaitingSet cs now) ∧
    (markAwaitingSet cs now).state = SetState.AWAITING_RESOLUTION ∧
    terminal_set_state (markAwaitingSet cs now).state = false := by
  have hm : (markAwaitingSet cs now).state = SetState.AWAITING_RESOLUTION := by
    unfold markAwaitingSet
    rw [if_pos (Or.inr hstate)]
  refine ⟨?_, hm, by rw [hm]; rfl⟩
  unfold manage_one_leg_set hold_filled_leg
  rw [if_neg (by simp [hstate])]
  simp only [hu, hf]
  rw [if_pos ht]

def c8Window : MarketWindow :=
  { condition_id := "0xc8", question := "q8", up_token_id := "t8u",
    down_token_id := "t8d", end_time_epoch := 900, slug := none,
    event_id := "e8" }

def c8Up : LegOrder :=
  { order_id := "o8u", token_id := "t8u", side := TokenSide.UP, price := 9/20,
    size := 5, state := OrderState.FILLED, placed_at := 5, filled_at := some 10 }

def c8Down : LegOrder :=
  { order_id := "o8d", token_id := "t8d", side := TokenSide.DOWN, price := 1/2,
    size := 5, state := OrderState.LIVE, placed_at := 5, filled_at := none }

def c8Set : CompleteSet :=
  { set_id := "s8", window := some c8Window, up_leg := some c8Up,
    down_leg := some c8Down, state := SetState.ONE_LEG_FILLED,
    created_at := 5, completed_at := none, pnl := none,
    redemption_attempts := 0, last_redemption_error := none }

def c8Env : RepostEnv :=
  { tob := none, new_order_id := "o8n", placed_state := OrderState.LIVE }

/-- Witness for C8: UP filled at t=10, DOWN still live, now=1000 ≫ 180 s. -/
theorem C8_one_leg_timeout_hold_witness :
    manage_one_leg_set defaultConfig c8Env 1000 c8Set =
      some ((if c8Down.state = OrderState.LIVE
             then [EngineAction.cancelOrder c8Down.order_id] else []),
            markAwaitingSet c8Set 1000) ∧
    (markAwaitingSet c8Set 1000).state = SetState.AWAITING_RESOLUTION ∧
    terminal_set_state (markAwaitingSet c8Set 1000).state = false :=
  C8_one_leg_timeout_hold defaultConfig c8Env 1000 c8Set c8Down c8Up
    (by simp [c8Set])
    (by simp [unfilled_leg, legPresentNotFilled, legFilledB, c8Set, c8Up, c8Down])
    (by simp [filled_leg, legFilledB, c8Set, c8Up, c8Down])
    (by norm_num [pyOrQ, c8Set, c8Up, defaultConfig])

-- ── C9 ──────────────────────────────────────────────────────────────

/-- Claim C9: when the last `payoutDenominator` check for this set's
`condition_id` happened less than 30 s ago, one redemption-loop step for
the set performs no resolution check, no redemption attempt, and no other
effect, and leaves the check-times map unchanged. -/
theorem C9_rate_limited_skip (env : RedemptionEnv) (times : List (String × ℚ))
    (now t : ℚ) (cs : CompleteSet) (w : MarketWindow)
    (hw : cs.window = some w) (hc : w.condition_id ≠ "")
    (hl : lookupTime times w.condition_id = some t) (hrl : now - t < 30) :
    attempt_redemption env times now cs = ([], times) := by
  unfold attempt_redemption
  simp only [hw]
  rw [if_neg hc]
  simp only [hl, Option.getD_some]
  rw [if_pos hrl]

def c9Window : MarketWindow :=
  { condition_id := "0xc9", question := "q9", up_token_id := "t9u",
    down_token_id := "t9d", end_time_epoch := 900, slug := none,
    event_id := "e9" }

def c9Set : CompleteSet :=
  { set_id := "s9", window := some c9Window, up_leg := some c8Up,
    down_leg := some c8Down, state := SetState.AWAITING_RESOLUTION,
    created_at := 5, completed_at := some 900, pnl := none,
    redemption_attempts := 0, last_redemption_error := none }

def c9Env : RedemptionEnv :=
  { resolved := true, redeem_success := true, redeem_error := "",
    suspected_blacklist := false }

/-- Witness for C9: last check at t=100, now=120 — 20 s < 30 s. -/
theorem C9_rate_limited_skip_witness :
    attempt_redemption c9Env [("0xc9", 100)] 120 c9Set =
      ([], [("0xc9", 100)]) :=
  C9_rate_limited_skip c9Env [("0xc9", 100)] 120 100 c9Set c9Window
    (by simp [c9Set]) (by simp [c9Window])
    (by simp [lookupTime, List.find?, c9Window]) (by norm_num)

-- ── C10 ─────────────────────────────────────────────────────────────

/-- Claim C10: `load` places every record whose state name parses into the
active collection exactly when the state is `COMPLETE`, `ONE_LEG_FILLED`
or `AWAITING_RESOLUTION`, and into the completed history otherwise — in
particular a record persisted in `QUOTING` goes to history, never back to
active. -/
theorem C10_load_partition (recs : List TradeRecord) :
    load_records recs =
      (recs.filterMap (fun r =>
         (parse_set_state r.state).bind (fun st =>
           if st ∈ loadActiveStates then some (restore_set r st) else none)),
       recs.filterMap (fun r =>
         (parse_set_state r.state).bind (fun st =>
           if st ∈ loadActiveStates then none else some (restore_set r st)))) := by
  induction recs with
  | nil => rfl
  | cons r rest ih =>
    cases hp : parse_set_state r.state with
    | none =>
        simp [load_records, hp, ih, List.filterMap_cons]
    | some st =>
        by_cases hst : st ∈ loadActiveStates
        · simp [load_records, hp, hst, ih, List.filterMap_cons]
        · simp [load_records, hp, hst, ih, List.filterMap_cons]

end PolyBot
